import Mathlib

/-!
Verification development for the Primerade REST API's authentication and
authorization middleware pipeline, the error-normalization layer, and the
owner-scoped product listing.

The definitions below are a shallow embedding of the JavaScript source:
`middleware/auth.js` (the `authenticate`, `authorizeAdmin` and
`authorizeOwnerOrAdmin` middlewares), `middleware/errorHandler.js` (the
error normalizer), and the product routes (`routes/v1/products.js`).
JavaScript truthiness of optional string and number values is modelled
explicitly (`jsTruthyStr`, `jsOrStr`, `jsOrNat`); fallible middleware steps
return an explicit result type (`MwResult`).
-/

/-- Account role, the `role` enum column of the User model
(`'user' | 'admin'`). -/
inductive Role where
  | user
  | admin
deriving DecidableEq, Repr

/-- A row of the User table: id, username, email, hashed password,
role and isActive flag (timestamps omitted; they are never read by the
middleware pipeline). -/
structure Account where
  id : String
  username : String
  email : String
  password : String
  role : Role
  isActive : Bool
deriving DecidableEq, Repr

/-- The Credential Store: the User table, looked up by primary key. -/
structure Store where
  accounts : List Account
deriving DecidableEq, Repr

/-- `User.findByPk(id)`: the account whose id matches, if any. -/
def Store.findByPk (s : Store) (id : String) : Option Account :=
  s.accounts.find? (fun a => a.id == id)

/-- Model of a signed JWT as handled by the external `jsonwebtoken`
library: subject id, an optional embedded role claim (present in no token
the server issues, but a forger or stale issuer could embed one — the
middleware must ignore it), issued-at, expiry, and the signature modelled
as the secret the token was signed with; `malformed` models a structurally
invalid token string. -/
structure SignedToken where
  sub : String
  roleClaim : Option Role
  iat : Nat
  exp : Nat
  sig : String
  malformed : Bool
deriving DecidableEq, Repr

/-- The two verification failures `jwt.verify` can raise that the
middleware distinguishes: `JsonWebTokenError` (malformed or bad
signature) and `TokenExpiredError`. -/
inductive JwtError where
  | jsonWebTokenError
  | tokenExpiredError
deriving DecidableEq, Repr

/-- Model of `jwt.verify(token, secret)`: rejects a malformed token or a
signature mismatch with `JsonWebTokenError`, then rejects an expired
token (`now` past `exp`) with `TokenExpiredError`, and otherwise returns
the decoded payload. Signature is checked before expiry. -/
def jwtVerify (t : SignedToken) (secret : String) (now : Nat) :
    Except JwtError SignedToken :=
  if t.malformed then Except.error JwtError.jsonWebTokenError
  else if t.sig ≠ secret then Except.error JwtError.jsonWebTokenError
  else if t.exp < now then Except.error JwtError.tokenExpiredError
  else Except.ok t

/-- The `Authorization` request header as `authenticate` distinguishes
it: absent, present but not of the `Bearer ` scheme, or a bearer token. -/
inductive AuthHeader where
  | missing
  | nonBearer (text : String)
  | bearer (t : SignedToken)
deriving DecidableEq, Repr

/-- The client-facing JSON error envelope `{ success: false, message }`
built by the middlewares with `res.status(code).json(...)`. -/
structure Envelope where
  success : Bool
  message : String
deriving DecidableEq, Repr

/-- Model of a JavaScript error object as seen by the error normalizer:
its `name`, `message`, optional custom `statusCode`, `stack`, and — for
Sequelize validation errors — the per-field messages of `err.errors`. -/
structure JsError where
  name : String
  message : String
  statusCode : Option Nat
  stack : String
  fieldMessages : List String
deriving DecidableEq, Repr

/-- Outcome of one Express middleware: call `next()` passing the request
on with the resolved account attached (`req.user`), respond directly with
`res.status(code).json(envelope)`, or forward an error to the error
normalizer with `next(error)`. -/
inductive MwResult where
  | next (user : Account)
  | respond (status : Nat) (body : Envelope)
  | nextError (e : JsError)
deriving DecidableEq, Repr

/-- `true` exactly when the middleware outcome hands the failure to the
error-handling middleware via `next(error)` instead of responding at the
call site. -/
def isForwardedToNormalizer : MwResult → Bool
  | MwResult.nextError _ => true
  | _ => false

/-- The `authenticate` middleware (`middleware/auth.js`): checks the
`Authorization` header uses the bearer scheme, verifies the token,
re-resolves the account by the decoded subject id, rejects a missing or
inactive account (`!user || !user.isActive`, one shared response), and
otherwise attaches the account and calls `next()`. Every failure response
is built directly at the call site. -/
def authenticate (h : AuthHeader) (secret : String) (store : Store)
    (now : Nat) : MwResult :=
  match h with
  | AuthHeader.missing =>
      MwResult.respond 401
        ⟨false, "Authentication required. Please provide a valid token."⟩
  | AuthHeader.nonBearer _ =>
      MwResult.respond 401
        ⟨false, "Authentication required. Please provide a valid token."⟩
  | AuthHeader.bearer t =>
      match jwtVerify t secret now with
      | Except.error JwtError.jsonWebTokenError =>
          MwResult.respond 401 ⟨false, "Invalid token."⟩
      | Except.error JwtError.tokenExpiredError =>
          MwResult.respond 401
            ⟨false, "Token has expired. Please login again."⟩
      | Except.ok decoded =>
          match store.findByPk decoded.sub with
          | none =>
              MwResult.respond 401
                ⟨false, "Invalid or inactive user token."⟩
          | some user =>
              if user.isActive = false then
                MwResult.respond 401
                  ⟨false, "Invalid or inactive user token."⟩
              else
                MwResult.next user

/-- The `authorizeAdmin` middleware: 403 unless the context account's
role is `admin`. -/
def authorizeAdmin (u : Account) : MwResult :=
  if u.role ≠ Role.admin then
    MwResult.respond 403
      ⟨false, "Access denied. Admin privileges required."⟩
  else
    MwResult.next u

/-- The request fields `authorizeOwnerOrAdmin` reads to locate the
resource's owning-account id: `req.resourceUserId` (handler-attached),
`req.body.userId`, and `req.params.userId`; each may be absent. -/
structure OwnReq where
  resourceUserId : Option String
  bodyUserId : Option String
  paramsUserId : Option String
deriving DecidableEq, Repr

/-- JavaScript truthiness of an optional string: `undefined` and the
empty string are falsy. -/
def jsTruthyStr : Option String → Bool
  | none => false
  | some s => s != ""

/-- JavaScript `a || b` over optional strings. -/
def jsOrStr (a b : Option String) : Option String :=
  if jsTruthyStr a then a else b

/-- `req.resourceUserId || req.body.userId || req.params.userId`: the
owning-account id the ownership gate compares against. -/
def resolveOwnerId (r : OwnReq) : Option String :=
  jsOrStr r.resourceUserId (jsOrStr r.bodyUserId r.paramsUserId)

/-- The `authorizeOwnerOrAdmin` middleware (the Ownership Gate): `next()`
when the context account is an admin or its id strictly equals the
resolved owning id (`===`, with an undefined owning id comparing unequal
to every id); 403 otherwise. -/
def authorizeOwnerOrAdmin (u : Account) (r : OwnReq) : MwResult :=
  if u.role = Role.admin ∨ resolveOwnerId r = some u.id then
    MwResult.next u
  else
    MwResult.respond 403
      ⟨false, "Access denied. You can only access your own resources."⟩

/-- `authenticate` composed with `authorizeAdmin`, as on the user
routes: the gate runs only when authentication called `next()`. -/
def adminPipeline (h : AuthHeader) (secret : String) (store : Store)
    (now : Nat) : MwResult :=
  match authenticate h secret store now with
  | MwResult.next u => authorizeAdmin u
  | other => other

/-- `authenticate` composed with `authorizeOwnerOrAdmin`. -/
def ownerPipeline (h : AuthHeader) (secret : String) (store : Store)
    (now : Nat) (r : OwnReq) : MwResult :=
  match authenticate h secret store now with
  | MwResult.next u => authorizeOwnerOrAdmin u r
  | other => other

/-- The serialized account exposed to downstream consumers: every User
column except the hashed credential. -/
structure AccountView where
  id : String
  username : String
  email : String
  role : Role
  isActive : Bool
deriving DecidableEq, Repr

/-- Modelled from the spec: the User model (`models/User.js`, whose file
is not part of this slice) serializes accounts "excluding the hashed
credential field from any further serialization"; its JSON view carries
every column but `password`. -/
def Account.toJSON (a : Account) : AccountView :=
  ⟨a.id, a.username, a.email, a.role, a.isActive⟩

/-- JavaScript truthiness fallback `a || d` over an optional number
(`undefined` and `0` are falsy). -/
def jsOrNat (a : Option Nat) (d : Nat) : Nat :=
  match a with
  | none => d
  | some n => if n = 0 then d else n

/-- The working error record the normalizer mutates: the `statusCode`
and `message` of the local `error` object in `errorHandler`. -/
structure NormError where
  statusCode : Option Nat
  message : String
deriving DecidableEq, Repr

/-- The normalizer's response: HTTP status, the `{ success: false,
message }` envelope, and whether the stack trace field was spread in. -/
structure ErrResponse where
  status : Nat
  success : Bool
  message : String
  stackIncluded : Bool
deriving DecidableEq, Repr

/-- The `errorHandler` middleware (`middleware/errorHandler.js`): starts
from a copy of the incoming error, rewrites it for each recognized error
name (Sequelize validation / unique constraint / foreign key, and the two
JWT errors), then responds with `error.statusCode || 500` and
`error.message || 'Server Error'`, spreading in the stack only when
`NODE_ENV === 'development'`. -/
def errorHandler (err : JsError) (nodeEnv : String) : ErrResponse :=
  let e0 : NormError := ⟨err.statusCode, err.message⟩
  let e1 : NormError :=
    if err.name = "SequelizeValidationError" then
      ⟨some 400,
        "Validation Error: " ++ String.intercalate ", " err.fieldMessages⟩
    else e0
  let e2 : NormError :=
    if err.name = "SequelizeUniqueConstraintError" then
      ⟨some 409, "Duplicate entry. This record already exists."⟩
    else e1
  let e3 : NormError :=
    if err.name = "SequelizeForeignKeyConstraintError" then
      ⟨some 400, "Invalid reference. Related record does not exist."⟩
    else e2
  let e4 : NormError :=
    if err.name = "JsonWebTokenError" then
      ⟨some 401, "Invalid token."⟩
    else e3
  let e5 : NormError :=
    if err.name = "TokenExpiredError" then
      ⟨some 401, "Token expired."⟩
    else e4
  { status := jsOrNat e5.statusCode 500
    success := false
    message := if e5.message = "" then "Server Error" else e5.message
    stackIncluded := nodeEnv = "development" }

/-- A row of the Product table, restricted to the columns the list route
reads: id, name, category, owning user id, and creation time (for the
`createdAt DESC` ordering). -/
structure Product where
  id : String
  name : String
  category : String
  userId : String
  createdAt : Nat
deriving DecidableEq, Repr

/-- The query string of `GET /api/v1/products` after express-validator
parsing: optional page, limit, category and search parameters. -/
structure ProductQuery where
  page : Option Nat
  limit : Option Nat
  category : Option String
  search : Option String
deriving DecidableEq, Repr

/-- The `where` clause the list route builds: an optional exact category
condition, an optional case-insensitive name-substring condition, and —
for non-admin callers — an owner condition on `userId`. -/
structure WhereClause where
  category : Option String
  searchName : Option String
  userId : Option String
deriving DecidableEq, Repr

/-- Keep an optional string only when it is JavaScript-truthy, as the
route's `if (category)` / `if (search)` guards do. -/
def keepTruthy (o : Option String) : Option String :=
  if jsTruthyStr o then o else none

/-- The `where` clause of the product list route: category and search
conditions when those query values are truthy (after the validator's
`trim()`), and `where.userId = req.user.id` exactly when
`req.user.role !== 'admin'`. -/
def buildWhere (q : ProductQuery) (u : Account) : WhereClause :=
  { category := keepTruthy (q.category.map String.trim)
    searchName := keepTruthy (q.search.map String.trim)
    userId := if u.role ≠ Role.admin then some u.id else none }

/-- Whether `pat` occurs as a contiguous run inside `hay`. -/
def charsContains (hay pat : List Char) : Bool :=
  (List.range (hay.length + 1)).any
    (fun i => ((hay.drop i).take pat.length) == pat)

/-- Sequelize `iLike '%pat%'`: case-insensitive substring match. -/
def iLikeContains (name pat : String) : Bool :=
  charsContains name.toLower.toList pat.toLower.toList

/-- Whether a product row satisfies every condition of a `where`
clause. -/
def matchesWhere (w : WhereClause) (p : Product) : Bool :=
  (match w.category with
   | some c => p.category == c
   | none => true) &&
  (match w.searchName with
   | some s => iLikeContains p.name s
   | none => true) &&
  (match w.userId with
   | some uid => p.userId == uid
   | none => true)

/-- Insert a product into a list kept sorted by `createdAt`
descending. -/
def insertByCreated (p : Product) : List Product → List Product
  | [] => [p]
  | q :: rest =>
      if q.createdAt ≤ p.createdAt then p :: q :: rest
      else q :: insertByCreated p rest

/-- `order: [['createdAt', 'DESC']]` of the store query. -/
def sortByCreatedDesc (l : List Product) : List Product :=
  l.foldr insertByCreated []

/-- The validator chain of the list route: `page` must be a positive
integer and `limit` an integer between 1 and 100 when present. -/
def validQuery (q : ProductQuery) : Bool :=
  (match q.page with
   | none => true
   | some n => 1 ≤ n) &&
  (match q.limit with
   | none => true
   | some n => 1 ≤ n && n ≤ 100)

/-- The rows of a successful product-list response: the table filtered
by the built `where` clause, ordered by creation time descending, and
paginated with `offset = (page - 1) * limit` (page and limit defaulting
to 1 and 10 through `parseInt(..) || d`). -/
def productListRows (q : ProductQuery) (u : Account)
    (db : List Product) : List Product :=
  let page := jsOrNat q.page 1
  let limit := jsOrNat q.limit 10
  let offset := (page - 1) * limit
  (((sortByCreatedDesc (db.filter (matchesWhere (buildWhere q u)))).drop
      offset).take limit)

/-- Outcome of `GET /api/v1/products`: a 400 validation failure or a 200
page of product rows. -/
inductive ListOutcome where
  | badRequest (message : String)
  | ok (products : List Product)
deriving DecidableEq, Repr

/-- The product list handler after authentication: 400 when the
validator reported errors, otherwise the filtered, ordered, paginated
rows. -/
def productList (q : ProductQuery) (u : Account)
    (db : List Product) : ListOutcome :=
  if validQuery q then ListOutcome.ok (productListRows q u db)
  else ListOutcome.badRequest "Validation failed"

/-! Concrete fixtures used by the witness theorems. -/

/-- The configured signing secret. -/
def secret0 : String := "server-secret"

/-- An active regular user. -/
def acctU : Account :=
  ⟨"u1", "alice", "alice@example.com", "hash-alice", Role.user, true⟩

/-- An active administrator. -/
def acctA : Account :=
  ⟨"a1", "root", "root@example.com", "hash-root", Role.admin, true⟩

/-- A deactivated user. -/
def acctI : Account :=
  ⟨"u2", "bob", "bob@example.com", "hash-bob", Role.user, false⟩

/-- A credential store holding the three fixture accounts. -/
def store0 : Store := ⟨[acctU, acctA, acctI]⟩

/-- A well-formed token for the active user, expiring at time 100. -/
def tokU : SignedToken := ⟨"u1", none, 0, 100, "server-secret", false⟩

/-- A well-formed token for the deactivated user. -/
def tokI : SignedToken := ⟨"u2", none, 0, 100, "server-secret", false⟩

/-- A well-formed token whose subject matches no stored account. -/
def tokGhost : SignedToken := ⟨"zz", none, 0, 100, "server-secret", false⟩

/-- A token signed with the wrong secret. -/
def tokBadSig : SignedToken := ⟨"u1", none, 0, 100, "other-secret", false⟩

/-- A token that expired at time 5. -/
def tokExpired : SignedToken := ⟨"u1", none, 0, 5, "server-secret", false⟩

/-- An ownership request whose handler-attached owner id belongs to
someone else. -/
def ownReq0 : OwnReq := ⟨some "owner-9", none, none⟩

/-- An unclassified error that carries its own message. -/
def errBoom : JsError := ⟨"Error", "boom", none, "trace-boom", []⟩

/-- An unclassified error with an empty message. -/
def errEmptyMsg : JsError := ⟨"RangeError", "", none, "trace-range", []⟩

/-- An empty product-list query (all parameters absent). -/
def q0 : ProductQuery := ⟨none, none, none, none⟩

/-- A product owned by the regular user. -/
def prodP : Product := ⟨"p1", "Laptop", "Electronics", "u1", 5⟩

/-- The sample product table. -/
def dbP : List Product := [prodP]

/-! Claim theorems. -/

/-- Claim C1: a `user`-role context whose id differs from the resolved
owning-account id is denied by the Ownership Gate with 403 and the
downstream handler is not invoked, while an `admin`-role context always
passes the gate regardless of the owning id. -/
theorem ownershipGate_user_forbidden_admin_allowed (u : Account)
    (r : OwnReq) :
    (u.role = Role.user → resolveOwnerId r ≠ some u.id →
      authorizeOwnerOrAdmin u r =
        MwResult.respond 403
          ⟨false, "Access denied. You can only access your own resources."⟩)
    ∧ (u.role = Role.admin →
        authorizeOwnerOrAdmin u r = MwResult.next u) := by
  constructor
  · intro hrole hne
    have hcond : ¬(u.role = Role.admin ∨ resolveOwnerId r = some u.id) := by
      rintro (h | h)
      · rw [hrole] at h
        exact Role.noConfusion h
      · exact hne h
    unfold authorizeOwnerOrAdmin
    rw [if_neg hcond]
  · intro hrole
    unfold authorizeOwnerOrAdmin
    rw [if_pos (Or.inl hrole)]

/-- Witness for C1 at concrete inputs: the fixture user is denied on a
foreign-owned resource and the fixture admin passes. -/
theorem ownershipGate_user_forbidden_admin_allowed_witness :
    acctU.role = Role.user
    ∧ resolveOwnerId ownReq0 ≠ some acctU.id
    ∧ authorizeOwnerOrAdmin acctU ownReq0 =
        MwResult.respond 403
          ⟨false, "Access denied. You can only access your own resources."⟩
    ∧ authorizeOwnerOrAdmin acctA ownReq0 = MwResult.next acctA :=
  ⟨rfl, by decide,
    (ownershipGate_user_forbidden_admin_allowed acctU ownReq0).1 rfl
      (by decide),
    (ownershipGate_user_forbidden_admin_allowed acctA ownReq0).2 rfl⟩

/-- Claim C6: the Ownership Gate resolves the owning-account id by fixed
precedence — the handler-attached field first, then the body field, then
the path parameter; the compared id is the first present (truthy)
value. -/
theorem resolveOwnerId_precedence (r : OwnReq) (s : String) :
    (r.resourceUserId = some s → s ≠ "" → resolveOwnerId r = some s)
    ∧ (r.resourceUserId = none → r.bodyUserId = some s → s ≠ "" →
        resolveOwnerId r = some s)
    ∧ (r.resourceUserId = none → r.bodyUserId = none →
        resolveOwnerId r = r.paramsUserId) := by
  refine ⟨?_, ?_, ?_⟩
  · intro h1 hs
    simp [resolveOwnerId, jsOrStr, jsTruthyStr, h1, hs]
  · intro h1 h2 hs
    simp [resolveOwnerId, jsOrStr, jsTruthyStr, h1, h2, hs]
  · intro h1 h2
    simp [resolveOwnerId, jsOrStr, jsTruthyStr, h1, h2]

/-- Witness for C6: each precedence clause evaluated on a concrete
request. -/
theorem resolveOwnerId_precedence_witness :
    resolveOwnerId ⟨some "o1", some "o2", some "o3"⟩ = some "o1"
    ∧ resolveOwnerId ⟨none, some "o2", some "o3"⟩ = some "o2"
    ∧ resolveOwnerId ⟨none, none, some "o3"⟩ = some "o3" :=
  ⟨(resolveOwnerId_precedence ⟨some "o1", some "o2", some "o3"⟩ "o1").1
      rfl (by decide),
   (resolveOwnerId_precedence ⟨none, some "o2", some "o3"⟩ "o2").2.1
      rfl rfl (by decide),
   by
    rw [(resolveOwnerId_precedence ⟨none, none, some "o3"⟩ "o3").2.2
      rfl rfl]⟩

/-- Claim C2: with a verifiable, unexpired token, both a subject id that
resolves to no account and one that resolves to a deactivated account
are rejected with the same 401 response (same status, same message), so
the two cases are client-indistinguishable. -/
theorem auth_unknown_or_inactive_uniform_401 (t : SignedToken)
    (secret : String) (store : Store) (now : Nat)
    (hv : jwtVerify t secret now = Except.ok t)
    (hm : store.findByPk t.sub = none ∨
      ∃ u, store.findByPk t.sub = some u ∧ u.isActive = false) :
    authenticate (AuthHeader.bearer t) secret store now =
      MwResult.respond 401 ⟨false, "Invalid or inactive user token."⟩ := by
  simp only [authenticate, hv]
  rcases hm with h | ⟨u, hu, hact⟩
  · simp [h]
  · simp [hu, hact]

/-- Witness for C2: the unknown-subject case and the deactivated-account
case at concrete inputs, with the common response. -/
theorem auth_unknown_or_inactive_uniform_401_witness :
    jwtVerify tokGhost secret0 10 = Except.ok tokGhost
    ∧ store0.findByPk tokGhost.sub = none
    ∧ jwtVerify tokI secret0 10 = Except.ok tokI
    ∧ store0.findByPk tokI.sub = some acctI
    ∧ acctI.isActive = false
    ∧ authenticate (AuthHeader.bearer tokGhost) secret0 store0 10 =
        MwResult.respond 401 ⟨false, "Invalid or inactive user token."⟩
    ∧ authenticate (AuthHeader.bearer tokI) secret0 store0 10 =
        MwResult.respond 401 ⟨false, "Invalid or inactive user token."⟩ :=
  ⟨rfl, by decide, rfl, by decide, rfl,
   auth_unknown_or_inactive_uniform_401 tokGhost secret0 store0 10
     rfl (Or.inl (by decide)),
   auth_unknown_or_inactive_uniform_401 tokI secret0 store0 10
     rfl (Or.inr ⟨acctI, by decide, rfl⟩)⟩

/-- Claim C8: a `JsonWebTokenError` from verification yields 401 with the
invalid-token message, a `TokenExpiredError` yields 401 with the
expired-token message, and the two messages are distinct. -/
theorem auth_verify_failure_messages (t : SignedToken) (secret : String)
    (store : Store) (now : Nat) :
    (jwtVerify t secret now = Except.error JwtError.jsonWebTokenError →
      authenticate (AuthHeader.bearer t) secret store now =
        MwResult.respond 401 ⟨false, "Invalid token."⟩)
    ∧ (jwtVerify t secret now = Except.error JwtError.tokenExpiredError →
      authenticate (AuthHeader.bearer t) secret store now =
        MwResult.respond 401
          ⟨false, "Token has expired. Please login again."⟩)
    ∧ ("Invalid token." ≠ "Token has expired. Please login again.") := by
  refine ⟨?_, ?_, by decide⟩
  · intro hv
    simp [authenticate, hv]
  · intro hv
    simp [authenticate, hv]

/-- Witness for C8: a wrong-secret token and an expired token, each with
its distinct 401 message. -/
theorem auth_verify_failure_messages_witness :
    jwtVerify tokBadSig secret0 10 =
      Except.error JwtError.jsonWebTokenError
    ∧ jwtVerify tokExpired secret0 10 =
      Except.error JwtError.tokenExpiredError
    ∧ authenticate (AuthHeader.bearer tokBadSig) secret0 store0 10 =
        MwResult.respond 401 ⟨false, "Invalid token."⟩
    ∧ authenticate (AuthHeader.bearer tokExpired) secret0 store0 10 =
        MwResult.respond 401
          ⟨false, "Token has expired. Please login again."⟩ :=
  ⟨rfl, rfl,
   (auth_verify_failure_messages tokBadSig secret0 store0 10).1 rfl,
   (auth_verify_failure_messages tokExpired secret0 store0 10).2.1
     rfl⟩

/-- Claim C9: the Authentication Middleware is deterministic — two runs
with the same header, store state, secret and clock that both resolve an
identity resolve the same account id and role. -/
theorem authenticate_deterministic (h : AuthHeader) (secret : String)
    (store : Store) (now : Nat) (u₁ u₂ : Account)
    (h₁ : authenticate h secret store now = MwResult.next u₁)
    (h₂ : authenticate h secret store now = MwResult.next u₂) :
    u₁.id = u₂.id ∧ u₁.role = u₂.role := by
  rw [h₁] at h₂
  injection h₂ with h
  rw [h]
  exact ⟨rfl, rfl⟩

/-- Witness for C9 at a concrete successful authentication. -/
theorem authenticate_deterministic_witness :
    authenticate (AuthHeader.bearer tokU) secret0 store0 10 =
      MwResult.next acctU
    ∧ (acctU.id = acctU.id ∧ acctU.role = acctU.role) :=
  ⟨by decide,
   authenticate_deterministic (AuthHeader.bearer tokU) secret0 store0 10
     acctU acctU (by decide) (by decide)⟩

/-- Claim C7: the pipelines ignore any role claim embedded in the token —
replacing a token's embedded role claim by anything changes neither the
admin pipeline's nor the owner pipeline's outcome; the role acted on is
the one freshly read from the Credential Store. -/
theorem pipeline_ignores_token_role_claim (t : SignedToken)
    (rc : Option Role) (secret : String) (store : Store) (now : Nat)
    (r : OwnReq) :
    adminPipeline (AuthHeader.bearer { t with roleClaim := rc })
        secret store now =
      adminPipeline (AuthHeader.bearer t) secret store now
    ∧ ownerPipeline (AuthHeader.bearer { t with roleClaim := rc })
        secret store now r =
      ownerPipeline (AuthHeader.bearer t) secret store now r := by
  have hauth :
      authenticate (AuthHeader.bearer { t with roleClaim := rc })
          secret store now =
        authenticate (AuthHeader.bearer t) secret store now := by
    by_cases hm : t.malformed
    · simp [authenticate, jwtVerify, hm]
    · by_cases hs : t.sig = secret
      · by_cases he : t.exp < now
        · simp [authenticate, jwtVerify, hm, hs, he]
        · simp [authenticate, jwtVerify, hm, hs, he]
      · simp [authenticate, jwtVerify, hm, hs]
  exact ⟨by simp only [adminPipeline, hauth],
         by simp only [ownerPipeline, hauth]⟩

/-- Claim C3: for every request that passes authentication, the
serialized context account exposed downstream is independent of the
hashed credential (substituting any other hash leaves it unchanged) and
still determines the id and role the gates consume. -/
theorem auth_context_excludes_password_hash (h : AuthHeader)
    (secret : String) (store : Store) (now : Nat) (u : Account)
    (pw : String)
    (_hnext : authenticate h secret store now = MwResult.next u) :
    Account.toJSON { u with password := pw } = Account.toJSON u
    ∧ (Account.toJSON u).id = u.id
    ∧ (Account.toJSON u).role = u.role :=
  ⟨rfl, rfl, rfl⟩

/-- Witness for C3 at a concrete authenticated request. -/
theorem auth_context_excludes_password_hash_witness :
    authenticate (AuthHeader.bearer tokU) secret0 store0 10 =
      MwResult.next acctU
    ∧ (Account.toJSON { acctU with password := "other-hash" } =
        Account.toJSON acctU
      ∧ (Account.toJSON acctU).id = acctU.id
      ∧ (Account.toJSON acctU).role = acctU.role) :=
  ⟨by decide,
   auth_context_excludes_password_hash (AuthHeader.bearer tokU) secret0
     store0 10 acctU "other-hash" (by decide)⟩

/-- Counterexample to C4 as stated: on a request with no `Authorization`
header the Authentication Middleware builds and sends its own 401
envelope at the call site — the failure never reaches the Error
Normalizer. -/
theorem auth_missing_header_bypasses_normalizer :
    authenticate AuthHeader.missing secret0 store0 0 =
      MwResult.respond 401
        ⟨false, "Authentication required. Please provide a valid token."⟩
    ∧ isForwardedToNormalizer
        (authenticate AuthHeader.missing secret0 store0 0) = false :=
  ⟨rfl, rfl⟩

/-- Every authentication outcome either passes the request on or is a
directly sent `{ success: false, message }` envelope; none is forwarded
to the error-handling middleware. -/
theorem authenticate_shape (h : AuthHeader) (secret : String)
    (store : Store) (now : Nat) :
    (∃ u, authenticate h secret store now = MwResult.next u) ∨
    (∃ c m, authenticate h secret store now =
      MwResult.respond c ⟨false, m⟩) := by
  cases h with
  | missing => exact Or.inr ⟨401, _, rfl⟩
  | nonBearer s => exact Or.inr ⟨401, _, rfl⟩
  | bearer t =>
    cases hjv : jwtVerify t secret now with
    | error e =>
      cases e
      · simp only [authenticate, hjv]
        exact Or.inr ⟨401, _, rfl⟩
      · simp only [authenticate, hjv]
        exact Or.inr ⟨401, _, rfl⟩
    | ok d =>
      simp only [authenticate, hjv]
      cases hfind : store.findByPk d.sub with
      | none =>
        simp only [hfind]
        exact Or.inr ⟨401, _, rfl⟩
      | some u =>
        simp only [hfind]
        by_cases hact : u.isActive = false
        · rw [if_pos hact]
          exact Or.inr ⟨401, _, rfl⟩
        · rw [if_neg hact]
          exact Or.inl ⟨u, rfl⟩

/-- Claim C4 as amended: no middleware of the pipeline forwards its
failures to the Error Normalizer — `authenticate`, `authorizeAdmin` and
`authorizeOwnerOrAdmin` each format their failure envelopes ad hoc at
the call site, and every such envelope still carries
`success = false`. -/
theorem middleware_failures_formatted_at_call_site (h : AuthHeader)
    (secret : String) (store : Store) (now : Nat) (u : Account)
    (r : OwnReq) :
    isForwardedToNormalizer (authenticate h secret store now) = false
    ∧ isForwardedToNormalizer (authorizeAdmin u) = false
    ∧ isForwardedToNormalizer (authorizeOwnerOrAdmin u r) = false
    ∧ (∀ code body,
        authenticate h secret store now = MwResult.respond code body →
        body.success = false) := by
  have hsh := authenticate_shape h secret store now
  refine ⟨?_, ?_, ?_, ?_⟩
  · rcases hsh with ⟨v, he⟩ | ⟨c, m, he⟩ <;> rw [he] <;> rfl
  · unfold authorizeAdmin
    split <;> rfl
  · unfold authorizeOwnerOrAdmin
    split <;> rfl
  · intro code body he
    rcases hsh with ⟨v, h1⟩ | ⟨c, m, h1⟩
    · rw [h1] at he
      cases he
    · rw [h1] at he
      injection he with hc hb
      rw [← hb]

/-- Witness for the amended C4 at a concrete failing request: the
missing-header failure is answered at the call site with a
`success = false` envelope. -/
theorem middleware_failures_formatted_at_call_site_witness :
    authenticate AuthHeader.missing secret0 store0 0 =
      MwResult.respond 401
        ⟨false, "Authentication required. Please provide a valid token."⟩
    ∧ (⟨false,
        "Authentication required. Please provide a valid token."⟩ :
        Envelope).success = false :=
  ⟨rfl,
   (middleware_failures_formatted_at_call_site AuthHeader.missing secret0
       store0 0 acctU ⟨none, none, none⟩).2.2.2 401
     ⟨false, "Authentication required. Please provide a valid token."⟩
     rfl⟩

/-- Counterexample to C5 as stated: an unclassified error that carries
its own message is answered with that message, not with the generic
server-error message. -/
theorem errorHandler_unclassified_echoes_message :
    errorHandler errBoom "production" = ⟨500, false, "boom", false⟩
    ∧ (errorHandler errBoom "production").message ≠ "Server Error" :=
  ⟨rfl, by decide⟩

/-- Claim C5 as amended: for an unclassified failure the normalizer
responds 500 when the failure carries no status code of its own, echoes
the failure's own message and falls back to the generic server-error
message only when that message is empty, and includes the stack trace
exactly in development mode. -/
theorem errorHandler_unclassified_behavior (err : JsError)
    (nodeEnv : String)
    (h1 : err.name ≠ "SequelizeValidationError")
    (h2 : err.name ≠ "SequelizeUniqueConstraintError")
    (h3 : err.name ≠ "SequelizeForeignKeyConstraintError")
    (h4 : err.name ≠ "JsonWebTokenError")
    (h5 : err.name ≠ "TokenExpiredError") :
    (err.statusCode = none → (errorHandler err nodeEnv).status = 500)
    ∧ ((errorHandler err nodeEnv).message =
        if err.message = "" then "Server Error" else err.message)
    ∧ ((errorHandler err nodeEnv).stackIncluded = true ↔
        nodeEnv = "development") := by
  refine ⟨?_, ?_, ?_⟩
  · intro hsc
    simp [errorHandler, h1, h2, h3, h4, h5, hsc, jsOrNat]
  · simp [errorHandler, h1, h2, h3, h4, h5]
  · simp [errorHandler, h1, h2, h3, h4, h5]

/-- Witness for the amended C5 at a concrete unclassified error with an
empty message, in development mode. -/
theorem errorHandler_unclassified_behavior_witness :
    errEmptyMsg.name ≠ "SequelizeValidationError"
    ∧ errEmptyMsg.statusCode = none
    ∧ (errorHandler errEmptyMsg "development").status = 500
    ∧ (errorHandler errEmptyMsg "development").message =
        (if errEmptyMsg.message = "" then "Server Error"
         else errEmptyMsg.message)
    ∧ ((errorHandler errEmptyMsg "development").stackIncluded = true ↔
        ("development" : String) = "development") :=
  have h := errorHandler_unclassified_behavior errEmptyMsg "development"
    (by decide) (by decide) (by decide) (by decide) (by decide)
  ⟨by decide, rfl, h.1 rfl, h.2.1, h.2.2⟩

/-- Membership in an ordered insertion comes from the inserted element
or the original list. -/
theorem mem_insertByCreated {x p : Product} :
    ∀ {l : List Product}, x ∈ insertByCreated p l → x = p ∨ x ∈ l := by
  intro l
  induction l with
  | nil =>
    intro hx
    simpa [insertByCreated] using hx
  | cons q rest ih =>
    intro hx
    simp only [insertByCreated] at hx
    split at hx
    · rcases List.mem_cons.1 hx with h | h
      · exact Or.inl h
      · exact Or.inr h
    · rcases List.mem_cons.1 hx with h | h
      · exact Or.inr (List.mem_cons.2 (Or.inl h))
      · rcases ih h with h2 | h2
        · exact Or.inl h2
        · exact Or.inr (List.mem_cons.2 (Or.inr h2))

/-- The `createdAt DESC` ordering permutes rows; it introduces none. -/
theorem mem_sortByCreatedDesc {x : Product} :
    ∀ {l : List Product}, x ∈ sortByCreatedDesc l → x ∈ l := by
  intro l
  induction l with
  | nil =>
    intro hx
    simp [sortByCreatedDesc] at hx
  | cons q rest ih =>
    intro hx
    rcases mem_insertByCreated (l := sortByCreatedDesc rest) hx with h | h
    · simp [h]
    · exact List.mem_cons.2 (Or.inr (ih h))

/-- Claim C10: in a successful product-list response for a non-admin
account every row's owner id equals the requester's id, while for an
admin account the built `where` clause carries no owner condition at
all. -/
theorem productList_owner_scoped (q : ProductQuery) (u : Account)
    (db : List Product) :
    (∀ rows p, u.role ≠ Role.admin →
      productList q u db = ListOutcome.ok rows → p ∈ rows →
      p.userId = u.id)
    ∧ (u.role = Role.admin → (buildWhere q u).userId = none) := by
  constructor
  · intro rows p hrole hok hmem
    have hrows : rows = productListRows q u db := by
      unfold productList at hok
      split at hok
      · injection hok with h
        exact h.symm
      · cases hok
    subst hrows
    simp only [productListRows] at hmem
    have h1 : p ∈ sortByCreatedDesc
        (db.filter (matchesWhere (buildWhere q u))) :=
      List.drop_subset _ _ (List.take_subset _ _ hmem)
    have h2 : p ∈ db.filter (matchesWhere (buildWhere q u)) :=
      mem_sortByCreatedDesc h1
    have h3 : matchesWhere (buildWhere q u) p = true :=
      (List.mem_filter.1 h2).2
    have huid : (buildWhere q u).userId = some u.id := by
      simp [buildWhere, hrole]
    simp only [matchesWhere, huid, Bool.and_eq_true] at h3
    have := h3.2
    simpa using this
  · intro hrole
    simp [buildWhere, hrole]

/-- Witness for C10: a non-admin listing returning exactly the
requester's product, and the admin clause carrying no owner filter. -/
theorem productList_owner_scoped_witness :
    acctU.role ≠ Role.admin
    ∧ productList q0 acctU dbP = ListOutcome.ok [prodP]
    ∧ prodP ∈ [prodP]
    ∧ prodP.userId = acctU.id
    ∧ (buildWhere q0 acctA).userId = none :=
  ⟨by decide, by decide, by simp,
   (productList_owner_scoped q0 acctU dbP).1 [prodP] prodP (by decide)
     (by decide) (by simp),
   (productList_owner_scoped q0 acctA dbP).2 rfl⟩
